import Mathlib

/-!
Verification of the PulseLab error-budget engine (src/physics.ts, with the
tool-execution validation layer and the REST handler from src/index.ts).

Numbers are modelled by exact rationals (ℚ).  The JavaScript constant
Math.PI is modelled by its exact IEEE-754 binary64 value
884279719003555 / 2^48.  The human-readable recommendation prose is
abridged (JavaScript number rendering such as toExponential is modelled
by exact rational rendering via toString); no property below depends on
that text, only on its branch structure being the same as the regime
branch structure.
-/

namespace PulseLab

/-- Exact value of the IEEE-754 double `Math.PI` used by the source. -/
def mathPI : ℚ := 884279719003555 / 281474976710656

/-- Input record `HardwareParams` from physics.ts. -/
structure HardwareParams where
  alpha_mhz : ℚ
  t1_us : ℚ
  t2_us : ℚ
  gate_time_ns : ℚ
deriving DecidableEq, Repr

/-- The `decoherence_floor` record returned by `computeDecoherenceFloor`. -/
structure DecoherenceFloor where
  t1_contribution : ℚ
  t2_contribution : ℚ
  total : ℚ
deriving DecidableEq, Repr

/-- The `estimated_infidelity` record inside `ErrorBudget`. -/
structure EstimatedInfidelity where
  gaussian : ℚ
  drag : ℚ
  grape : ℚ
deriving DecidableEq, Repr

/-- Output record `ErrorBudget` from physics.ts.  The `regime` field is the
string union type of the source; `recommendation` carries the (abridged)
deterministic prose. -/
structure ErrorBudget where
  params : HardwareParams
  decoherence_floor : DecoherenceFloor
  estimated_infidelity : EstimatedInfidelity
  regime : String
  recommendation : String
  t2_over_t_ratio : ℚ
  drag_beta : ℚ
deriving DecidableEq, Repr

/-- Output record `RobustnessEstimate` from physics.ts. -/
structure RobustnessEstimate where
  method : String
  detuning_min_fidelity : ℚ
  amplitude_min_fidelity : ℚ
  detuning_robust : Bool
  amplitude_robust : Bool
deriving DecidableEq, Repr

/-- `computeDecoherenceFloor` from physics.ts: converts T1/T2 from
microseconds to nanoseconds, then forms the relaxation contribution
`t/(2*t1_ns)`, the clamped pure-dephasing contribution
`max(0, t/t2_ns - t/(2*t1_ns))`, and their sum. -/
def computeDecoherenceFloor (gate_time_ns t1_us t2_us : ℚ) : DecoherenceFloor :=
  let t_ns := gate_time_ns
  let t1_ns := t1_us * 1000
  let t2_ns := t2_us * 1000
  let eps_t1 := t_ns / (2 * t1_ns)
  let eps_t2 := t_ns / t2_ns - t_ns / (2 * t1_ns)
  let eps_phi := max 0 eps_t2
  { t1_contribution := eps_t1
    t2_contribution := eps_phi
    total := eps_t1 + eps_phi }

/-- `estimateDragCoherentError` from physics.ts. -/
def estimateDragCoherentError (gate_time_ns alpha_mhz : ℚ) : ℚ :=
  let abs_alpha := |alpha_mhz|
  let ref_error : ℚ := 4.9e-4
  let ref_gate : ℚ := 20
  let ref_alpha : ℚ := 200
  let r := (ref_gate / gate_time_ns) ^ 4 * (ref_alpha / abs_alpha) ^ 2
  ref_error * r

/-- `estimateGaussianCoherentError` from physics.ts. -/
def estimateGaussianCoherentError (gate_time_ns alpha_mhz : ℚ) : ℚ :=
  let abs_alpha := |alpha_mhz|
  let ref_error : ℚ := 2.8e-2
  let ref_gate : ℚ := 20
  let ref_alpha : ℚ := 200
  let r := (ref_gate / gate_time_ns) ^ 2 * (ref_alpha / abs_alpha) ^ 2
  ref_error * r

/-- `computeDragBeta` from physics.ts: beta = -1/(2*alpha_rad_per_ns) with
alpha_rad_per_ns = alpha_mhz * 2 * Math.PI / 1000. -/
def computeDragBeta (alpha_mhz : ℚ) : ℚ :=
  let alpha_rad_per_ns := alpha_mhz * 2 * mathPI / 1000;
  -1 / (2 * alpha_rad_per_ns)

/-- `computeErrorBudget` from physics.ts.  The regime/recommendation
if-chain mirrors the source exactly: gate_time_ns < 15 gives
"short_gate_regime", else drag_coherent < floor.total * 0.5 gives
"drag_sufficient", else "grape_needed". -/
def computeErrorBudget (params : HardwareParams) : ErrorBudget :=
  let floor := computeDecoherenceFloor params.gate_time_ns params.t1_us params.t2_us
  let drag_coherent := estimateDragCoherentError params.gate_time_ns params.alpha_mhz
  let gaussian_coherent := estimateGaussianCoherentError params.gate_time_ns params.alpha_mhz
  let grape_total := floor.total
  let drag_total := drag_coherent + floor.total
  let gaussian_total := gaussian_coherent + floor.total
  let t2_over_t := params.t2_us * 1000 / params.gate_time_ns
  let beta := computeDragBeta params.alpha_mhz
  let rr : String × String :=
    if params.gate_time_ns < 15 then
      ("short_gate_regime",
       "At " ++ toString params.gate_time_ns ++
       "ns gate time, the perturbative DRAG correction breaks down; GRAPE is needed.")
    else if drag_coherent < floor.total * 0.5 then
      ("drag_sufficient",
       "Properly calibrated DRAG is sufficient: coherent error " ++
       toString drag_coherent ++ " is well below the decoherence floor " ++
       toString floor.total ++ "; DRAG total is " ++
       toString (drag_total / grape_total) ++
       "x the GRAPE floor; raising T2 (currently " ++ toString params.t2_us ++
       " us, contributing " ++ toString floor.t2_contribution ++
       ") is the highest-leverage improvement.")
    else
      ("grape_needed",
       "DRAG coherent error " ++ toString drag_coherent ++
       " is comparable to or exceeds the decoherence floor " ++
       toString floor.total ++ "; GRAPE can provide meaningful improvement.")
  { params := params
    decoherence_floor := floor
    estimated_infidelity :=
      { gaussian := gaussian_total
        drag := drag_total
        grape := grape_total }
    regime := rr.1
    recommendation := rr.2
    t2_over_t_ratio := t2_over_t
    drag_beta := beta }

/-- `estimateRobustness` from physics.ts: fixed three-entry table scaled by
gate_factor = min(1, 20/t). -/
def estimateRobustness (params : HardwareParams) : List RobustnessEstimate :=
  let t := params.gate_time_ns
  let gate_factor := min 1 (20 / t)
  [ { method := "Gaussian"
      detuning_min_fidelity := 0.937 * (1 - 0.03 * gate_factor)
      amplitude_min_fidelity := 0.965 * (1 - 0.02 * gate_factor)
      detuning_robust := false
      amplitude_robust := false },
    { method := "DRAG"
      detuning_min_fidelity := 0.990 * (1 - 0.01 * gate_factor)
      amplitude_min_fidelity := 0.990 * (1 - 0.01 * gate_factor)
      detuning_robust := true
      amplitude_robust := true },
    { method := "GRAPE"
      detuning_min_fidelity := 0.931 * (1 - 0.04 * gate_factor)
      amplitude_min_fidelity := 0.994 * (1 - 0.005 * gate_factor)
      detuning_robust := false
      amplitude_robust := true } ]

/-- The `compute_error_budget` case of `executeTool` from src/index.ts.
The three validation checks run in source order before any computation;
each early return is modelled as `.error` carrying the message (the first
two interpolate values with toString in place of JavaScript number
rendering; the third message is the source string verbatim).  On success
the source formats the budget to text; the model returns the budget that
would be formatted. -/
def executeToolComputeErrorBudget (p : HardwareParams) : Except String ErrorBudget :=
  if p.t2_us > 2 * p.t1_us then
    .error ("Warning: T2 (" ++ toString p.t2_us ++ " us) exceeds 2*T1 (" ++
      toString (2 * p.t1_us) ++
      " us). This is physically impossible; T2 <= 2*T1 always. Please check your values.")
  else if p.alpha_mhz > 0 then
    .error ("Warning: Positive anharmonicity (" ++ toString p.alpha_mhz ++
      " MHz) is unusual for transmons. Transmons typically have alpha < 0 (e.g., -200 MHz). Did you mean " ++
      toString (-|p.alpha_mhz|) ++ " MHz?")
  else if p.gate_time_ns ≤ 0 ∨ p.t1_us ≤ 0 ∨ p.t2_us ≤ 0 then
    .error "Error: All time parameters must be positive."
  else
    .ok (computeErrorBudget p)

/-- The /api/error-budget POST handler from src/index.ts calls
`computeErrorBudget` on the parsed body directly, with no validation. -/
def apiErrorBudget (body : HardwareParams) : ErrorBudget :=
  computeErrorBudget body

/-- Spec-side regime classifier (amended wording): a priority-ordered rule
list, first match wins, using the label "short_gate_regime" that the code
actually produces. -/
def regimeSpec (p : HardwareParams) : String :=
  if p.gate_time_ns < 15 then "short_gate_regime"
  else if estimateDragCoherentError p.gate_time_ns p.alpha_mhz <
      0.5 * (computeDecoherenceFloor p.gate_time_ns p.t1_us p.t2_us).total then
    "drag_sufficient"
  else "grape_needed"

/-! Helper lemmas shared by the claim theorems. -/

/-- The regime field of the budget equals the priority-ordered classifier. -/
lemma budget_regime_eq (p : HardwareParams) :
    (computeErrorBudget p).regime = regimeSpec p := by
  simp only [computeErrorBudget, regimeSpec]
  by_cases h1 : p.gate_time_ns < 15
  · rw [if_pos h1, if_pos h1]
  · rw [if_neg h1, if_neg h1]
    by_cases h2 : estimateDragCoherentError p.gate_time_ns p.alpha_mhz <
        (computeDecoherenceFloor p.gate_time_ns p.t1_us p.t2_us).total * 0.5
    · rw [if_pos h2, if_pos (by rwa [mul_comm] at h2)]
    · rw [if_neg h2, if_neg (fun h => h2 (by rwa [mul_comm] at h))]

/-- The decoherence total is the maximum of the two channel ratios. -/
lemma total_eq_max (g t1 t2 : ℚ) :
    (computeDecoherenceFloor g t1 t2).total
      = max (g / (2 * (t1 * 1000))) (g / (t2 * 1000)) := by
  show g / (2 * (t1 * 1000)) + max 0 (g / (t2 * 1000) - g / (2 * (t1 * 1000))) = _
  rcases le_total (g / (t2 * 1000)) (g / (2 * (t1 * 1000))) with h | h
  · rw [max_eq_left (by linarith), max_eq_left h, add_zero]
  · rw [max_eq_right (by linarith), max_eq_right h]; ring

/-- The DRAG coherent-error estimate is never negative. -/
lemma dragCoherent_nonneg (g a : ℚ) : 0 ≤ estimateDragCoherentError g a := by
  show 0 ≤ (4.9e-4 : ℚ) * ((20 / g) ^ 4 * (200 / |a|) ^ 2)
  positivity

/-- The Gaussian coherent-error estimate is never negative. -/
lemma gaussianCoherent_nonneg (g a : ℚ) : 0 ≤ estimateGaussianCoherentError g a := by
  show 0 ≤ (2.8e-2 : ℚ) * ((20 / g) ^ 2 * (200 / |a|) ^ 2)
  positivity

/-! Claim theorems. -/

/-- C1 (counterexample): at gate_time_ns = 10 < 15 the regime field is the
string "short_gate_regime", not "short_gate", and it is not a member of
the claimed label set {short_gate, drag_sufficient, grape_needed}. -/
theorem regime_short_gate_label_counterexample :
    (⟨-200, 37, 9.6, 10⟩ : HardwareParams).gate_time_ns < 15 ∧
    (computeErrorBudget ⟨-200, 37, 9.6, 10⟩).regime = "short_gate_regime" ∧
    (computeErrorBudget ⟨-200, 37, 9.6, 10⟩).regime ≠ "short_gate" ∧
    (computeErrorBudget ⟨-200, 37, 9.6, 10⟩).regime ∉
      (["short_gate", "drag_sufficient", "grape_needed"] : List String) := by
  have hr : (computeErrorBudget ⟨-200, 37, 9.6, 10⟩).regime = "short_gate_regime" := by
    rw [budget_regime_eq]; norm_num [regimeSpec]
  refine ⟨by norm_num, hr, ?_, ?_⟩
  · rw [hr]; decide
  · rw [hr]; decide

/-- C1 (amended): computeErrorBudget classifies the regime by the strict
priority order with first match wins — gate_time_ns < 15 gives
"short_gate_regime", else DRAG coherent error < 0.5 * decoherence_floor.total
gives "drag_sufficient", else "grape_needed" — and the regime field is one
of those three strings. -/
theorem computeErrorBudget_regime_priority (p : HardwareParams) :
    (computeErrorBudget p).regime = regimeSpec p ∧
    (computeErrorBudget p).regime ∈
      (["short_gate_regime", "drag_sufficient", "grape_needed"] : List String) := by
  refine ⟨budget_regime_eq p, ?_⟩
  rw [budget_regime_eq]
  unfold regimeSpec
  split_ifs <;> simp

/-- C2: computeDecoherenceFloor converts T1/T2 to nanoseconds by a factor
1000 before any ratio, returns t1_contribution = g/(2*t1_ns),
t2_contribution = max(0, g/t2_ns - g/(2*t1_ns)) — exactly 0 when
t2_us = 2*t1_us and never negative — and total is their sum. -/
theorem computeDecoherenceFloor_spec (g t1 t2 : ℚ)
    (hg : 0 < g) (h1 : 0 < t1) (h2 : 0 < t2) :
    (computeDecoherenceFloor g t1 t2).t1_contribution = g / (2 * (t1 * 1000)) ∧
    (computeDecoherenceFloor g t1 t2).t2_contribution
      = max 0 (g / (t2 * 1000) - g / (2 * (t1 * 1000))) ∧
    (t2 = 2 * t1 → (computeDecoherenceFloor g t1 t2).t2_contribution = 0) ∧
    0 ≤ (computeDecoherenceFloor g t1 t2).t2_contribution ∧
    (computeDecoherenceFloor g t1 t2).total
      = (computeDecoherenceFloor g t1 t2).t1_contribution
        + (computeDecoherenceFloor g t1 t2).t2_contribution := by
  refine ⟨rfl, rfl, ?_, le_max_left _ _, rfl⟩
  intro ht
  subst ht
  show max 0 (g / (2 * t1 * 1000) - g / (2 * (t1 * 1000))) = 0
  have hz : g / (2 * t1 * 1000) - g / (2 * (t1 * 1000)) = 0 := by ring
  rw [hz, max_self]

/-- C2 witness at g = 20, t1 = 37, t2 = 74 (= 2*T1, exercising the clamp). -/
theorem computeDecoherenceFloor_spec_witness :
    (0 : ℚ) < 20 ∧ (0 : ℚ) < 37 ∧ (0 : ℚ) < 74 ∧
    ((computeDecoherenceFloor 20 37 74).t1_contribution = 20 / (2 * (37 * 1000)) ∧
     (computeDecoherenceFloor 20 37 74).t2_contribution
       = max 0 (20 / (74 * 1000) - 20 / (2 * (37 * 1000))) ∧
     ((74 : ℚ) = 2 * 37 → (computeDecoherenceFloor 20 37 74).t2_contribution = 0) ∧
     0 ≤ (computeDecoherenceFloor 20 37 74).t2_contribution ∧
     (computeDecoherenceFloor 20 37 74).total
       = (computeDecoherenceFloor 20 37 74).t1_contribution
         + (computeDecoherenceFloor 20 37 74).t2_contribution) :=
  ⟨by norm_num, by norm_num, by norm_num,
   computeDecoherenceFloor_spec 20 37 74 (by norm_num) (by norm_num) (by norm_num)⟩

/-- C3: the budget satisfies grape = decoherence_floor.total,
drag = drag coherent error + total, gaussian = gaussian coherent error +
total, hence grape <= drag, grape <= gaussian, and every estimated
infidelity is at least the decoherence floor. -/
theorem computeErrorBudget_ordering (p : HardwareParams)
    (hg : 0 < p.gate_time_ns) (h1 : 0 < p.t1_us) (h2 : 0 < p.t2_us)
    (ha : p.alpha_mhz ≠ 0) :
    (computeErrorBudget p).estimated_infidelity.grape
      = (computeErrorBudget p).decoherence_floor.total ∧
    (computeErrorBudget p).estimated_infidelity.drag
      = estimateDragCoherentError p.gate_time_ns p.alpha_mhz
        + (computeErrorBudget p).decoherence_floor.total ∧
    (computeErrorBudget p).estimated_infidelity.gaussian
      = estimateGaussianCoherentError p.gate_time_ns p.alpha_mhz
        + (computeErrorBudget p).decoherence_floor.total ∧
    (computeErrorBudget p).estimated_infidelity.grape
      ≤ (computeErrorBudget p).estimated_infidelity.drag ∧
    (computeErrorBudget p).estimated_infidelity.grape
      ≤ (computeErrorBudget p).estimated_infidelity.gaussian ∧
    (computeErrorBudget p).decoherence_floor.total
      ≤ (computeErrorBudget p).estimated_infidelity.gaussian ∧
    (computeErrorBudget p).decoherence_floor.total
      ≤ (computeErrorBudget p).estimated_infidelity.drag ∧
    (computeErrorBudget p).decoherence_floor.total
      ≤ (computeErrorBudget p).estimated_infidelity.grape := by
  have hd := dragCoherent_nonneg p.gate_time_ns p.alpha_mhz
  have hga := gaussianCoherent_nonneg p.gate_time_ns p.alpha_mhz
  refine ⟨rfl, rfl, rfl, ?_, ?_, ?_, ?_, le_refl _⟩ <;>
    · simp only [computeErrorBudget]
      linarith

/-- C3 witness at the IQM Garnet parameter set. -/
theorem computeErrorBudget_ordering_witness :
    (0 : ℚ) < (⟨-200, 37, 9.6, 20⟩ : HardwareParams).gate_time_ns ∧
    (0 : ℚ) < (⟨-200, 37, 9.6, 20⟩ : HardwareParams).t1_us ∧
    (0 : ℚ) < (⟨-200, 37, 9.6, 20⟩ : HardwareParams).t2_us ∧
    (⟨-200, 37, 9.6, 20⟩ : HardwareParams).alpha_mhz ≠ 0 ∧
    (computeErrorBudget ⟨-200, 37, 9.6, 20⟩).estimated_infidelity.grape
      ≤ (computeErrorBudget ⟨-200, 37, 9.6, 20⟩).estimated_infidelity.drag :=
  ⟨by norm_num, by norm_num, by norm_num, by norm_num,
   (computeErrorBudget_ordering ⟨-200, 37, 9.6, 20⟩
      (by norm_num) (by norm_num) (by norm_num) (by norm_num)).2.2.2.1⟩

/-- C4: drag_beta = -1/(2*alpha_rad_per_ns) with
alpha_rad_per_ns = alpha_mhz * 2 * pi / 1000 (pi being the double Math.PI),
and drag_beta is a function of the anharmonicity alone: any two parameter
sets sharing alpha_mhz give identical drag_beta. -/
theorem drag_beta_only_anharmonicity (p q : HardwareParams)
    (ha : p.alpha_mhz ≠ 0) (hq : q.alpha_mhz = p.alpha_mhz) :
    (computeErrorBudget p).drag_beta
      = -1 / (2 * (p.alpha_mhz * 2 * mathPI / 1000)) ∧
    (computeErrorBudget q).drag_beta = (computeErrorBudget p).drag_beta := by
  constructor
  · rfl
  · show computeDragBeta q.alpha_mhz = computeDragBeta p.alpha_mhz
    rw [hq]

/-- C4 witness: two parameter sets differing in T1, T2 and gate time but
sharing alpha_mhz = -200. -/
theorem drag_beta_only_anharmonicity_witness :
    (⟨-200, 37, 9.6, 20⟩ : HardwareParams).alpha_mhz ≠ 0 ∧
    (⟨-200, 50, 15, 30⟩ : HardwareParams).alpha_mhz
      = (⟨-200, 37, 9.6, 20⟩ : HardwareParams).alpha_mhz ∧
    (computeErrorBudget ⟨-200, 50, 15, 30⟩).drag_beta
      = (computeErrorBudget ⟨-200, 37, 9.6, 20⟩).drag_beta :=
  ⟨by norm_num, rfl,
   (drag_beta_only_anharmonicity ⟨-200, 37, 9.6, 20⟩ ⟨-200, 50, 15, 30⟩
      (by norm_num) rfl).2⟩

/-- C5: the DRAG coherent error is 4.9e-4 * (20/T)^4 * (200/|alpha|)^2 and
the Gaussian coherent error is 2.8e-2 * (20/T)^2 * (200/|alpha|)^2. -/
theorem coherent_error_scaling (g a : ℚ) (hg : 0 < g) (ha : a ≠ 0) :
    estimateDragCoherentError g a = 4.9e-4 * (20 / g) ^ 4 * (200 / |a|) ^ 2 ∧
    estimateGaussianCoherentError g a = 2.8e-2 * (20 / g) ^ 2 * (200 / |a|) ^ 2 := by
  constructor
  · unfold estimateDragCoherentError; ring
  · unfold estimateGaussianCoherentError; ring

/-- C5 witness at the reference point T = 20 ns, alpha = -200 MHz. -/
theorem coherent_error_scaling_witness :
    (0 : ℚ) < 20 ∧ (-200 : ℚ) ≠ 0 ∧
    estimateDragCoherentError 20 (-200)
      = 4.9e-4 * (20 / 20) ^ 4 * (200 / |(-200 : ℚ)|) ^ 2 :=
  ⟨by norm_num, by norm_num,
   (coherent_error_scaling 20 (-200) (by norm_num) (by norm_num)).1⟩

/-- C6 (counterexample): at the concrete input alpha = -200 MHz, T1 = 37 us,
T2 = 9.6 us, gate time 20 ns, drag_beta equals the claimed formula
-1/(2*(-200*2*pi/1000)) but evaluates to about 0.3979 ns, not the claimed
3.979e-3 ns: it differs from 3.979e-3 by more than 0.1. -/
theorem concrete_scenario_beta_counterexample :
    (computeErrorBudget ⟨-200, 37, 9.6, 20⟩).drag_beta
      = -1 / (2 * (-200 * 2 * mathPI / 1000)) ∧
    |(computeErrorBudget ⟨-200, 37, 9.6, 20⟩).drag_beta - 3.979e-3| > 1e-1 := by
  have hbeta : (computeErrorBudget ⟨-200, 37, 9.6, 20⟩).drag_beta
      = -1 / (2 * (-200 * 2 * mathPI / 1000)) := rfl
  refine ⟨hbeta, ?_⟩
  rw [hbeta]
  have h : (1e-1 : ℚ) < -1 / (2 * (-200 * 2 * mathPI / 1000)) - 3.979e-3 := by
    norm_num [mathPI]
  exact lt_of_lt_of_le h (le_abs_self _)

/-- C6 (amended): for the concrete input alpha = -200 MHz, T1 = 37 us,
T2 = 9.6 us, gate time 20 ns: t1_contribution = 20/(2*37000) (about
2.703e-4), t2_contribution about 1.812e-3, total about 2.082e-3, DRAG
coherent error exactly 4.9e-4 (reference point), which is below half the
floor, regime "drag_sufficient", and
drag_beta = -1/(2*(-200*2*pi/1000)), about 3.979e-1 ns (not 3.979e-3). -/
theorem concrete_scenario_garnet :
    (computeErrorBudget ⟨-200, 37, 9.6, 20⟩).decoherence_floor.t1_contribution
      = 20 / (2 * 37000) ∧
    |(computeErrorBudget ⟨-200, 37, 9.6, 20⟩).decoherence_floor.t1_contribution
      - 2.703e-4| < 1e-7 ∧
    |(computeErrorBudget ⟨-200, 37, 9.6, 20⟩).decoherence_floor.t2_contribution
      - 1.812e-3| < 2e-6 ∧
    |(computeErrorBudget ⟨-200, 37, 9.6, 20⟩).decoherence_floor.total
      - 2.082e-3| < 2e-6 ∧
    estimateDragCoherentError 20 (-200) = 4.9e-4 ∧
    estimateDragCoherentError 20 (-200)
      < 0.5 * (computeErrorBudget ⟨-200, 37, 9.6, 20⟩).decoherence_floor.total ∧
    (computeErrorBudget ⟨-200, 37, 9.6, 20⟩).regime = "drag_sufficient" ∧
    (computeErrorBudget ⟨-200, 37, 9.6, 20⟩).drag_beta
      = -1 / (2 * (-200 * 2 * mathPI / 1000)) ∧
    |(computeErrorBudget ⟨-200, 37, 9.6, 20⟩).drag_beta - 3.979e-1| < 1e-4 := by
  have h1c : (computeErrorBudget ⟨-200, 37, 9.6, 20⟩).decoherence_floor.t1_contribution
      = 1 / 3700 := by
    show (20 : ℚ) / (2 * (37 * 1000)) = 1 / 3700
    norm_num
  have h2c : (computeErrorBudget ⟨-200, 37, 9.6, 20⟩).decoherence_floor.t2_contribution
      = 161 / 88800 := by
    show max 0 ((20 : ℚ) / (9.6 * 1000) - 20 / (2 * (37 * 1000))) = 161 / 88800
    rw [max_eq_right (by norm_num)]
    norm_num
  have htot : (computeErrorBudget ⟨-200, 37, 9.6, 20⟩).decoherence_floor.total
      = 1 / 480 := by
    show (20 : ℚ) / (2 * (37 * 1000))
        + max 0 ((20 : ℚ) / (9.6 * 1000) - 20 / (2 * (37 * 1000))) = 1 / 480
    rw [max_eq_right (by norm_num)]
    norm_num
  have hdrag : estimateDragCoherentError 20 (-200) = 4.9e-4 := by
    norm_num [estimateDragCoherentError]
  have hreg : (computeErrorBudget ⟨-200, 37, 9.6, 20⟩).regime = "drag_sufficient" := by
    show (if (20 : ℚ) < 15 then _
          else if estimateDragCoherentError 20 (-200)
              < (computeDecoherenceFloor 20 37 9.6).total * 0.5 then _
          else _ : String × String).1 = _
    rw [if_neg (by norm_num),
        if_pos (by norm_num [estimateDragCoherentError, computeDecoherenceFloor])]
  have hbeta : (computeErrorBudget ⟨-200, 37, 9.6, 20⟩).drag_beta
      = -1 / (2 * (-200 * 2 * mathPI / 1000)) := rfl
  refine ⟨by rw [h1c]; norm_num, by rw [h1c, abs_sub_lt_iff]; norm_num,
          by rw [h2c, abs_sub_lt_iff]; norm_num,
          by rw [htot, abs_sub_lt_iff]; norm_num, hdrag,
          by rw [hdrag, htot]; norm_num, hreg, hbeta,
          by rw [hbeta, abs_sub_lt_iff]; norm_num [mathPI]⟩

/-- C7: the decoherence-floor total is non-decreasing in gate time and
non-increasing in T1 and in T2, the other parameters held fixed, including
across the dephasing-clamp boundary. -/
theorem decoherence_floor_monotone (g g' t1 t1' t2 t2' : ℚ)
    (hg : 0 < g) (h1 : 0 < t1) (h2 : 0 < t2) :
    (g ≤ g' → (computeDecoherenceFloor g t1 t2).total
      ≤ (computeDecoherenceFloor g' t1 t2).total) ∧
    (t1 ≤ t1' → (computeDecoherenceFloor g t1' t2).total
      ≤ (computeDecoherenceFloor g t1 t2).total) ∧
    (t2 ≤ t2' → (computeDecoherenceFloor g t1 t2').total
      ≤ (computeDecoherenceFloor g t1 t2).total) := by
  refine ⟨fun h => ?_, fun h => ?_, fun h => ?_⟩ <;>
    · rw [total_eq_max, total_eq_max]
      gcongr

/-- C7 witness at g = 20 <= 25, t1 = 37 <= 40, t2 = 9 <= 10. -/
theorem decoherence_floor_monotone_witness :
    (0 : ℚ) < 20 ∧ (0 : ℚ) < 37 ∧ (0 : ℚ) < 9 ∧
    (computeDecoherenceFloor 20 37 9).total ≤ (computeDecoherenceFloor 25 37 9).total ∧
    (computeDecoherenceFloor 20 40 9).total ≤ (computeDecoherenceFloor 20 37 9).total ∧
    (computeDecoherenceFloor 20 37 10).total ≤ (computeDecoherenceFloor 20 37 9).total :=
  ⟨by norm_num, by norm_num, by norm_num,
   (decoherence_floor_monotone 20 25 37 40 9 10
      (by norm_num) (by norm_num) (by norm_num)).1 (by norm_num),
   (decoherence_floor_monotone 20 25 37 40 9 10
      (by norm_num) (by norm_num) (by norm_num)).2.1 (by norm_num),
   (decoherence_floor_monotone 20 25 37 40 9 10
      (by norm_num) (by norm_num) (by norm_num)).2.2 (by norm_num)⟩

/-- C8 (counterexample): two inputs in which different fields are
non-positive (gate_time_ns = -1 in the first, t1_us = -1 in the second)
produce the identical generic refusal message, so the tool layer does not
report which field failed. -/
theorem executeTool_generic_error_counterexample :
    executeToolComputeErrorBudget ⟨-200, 37, 9.6, -1⟩
      = .error "Error: All time parameters must be positive." ∧
    executeToolComputeErrorBudget ⟨-200, -1, -2, 20⟩
      = .error "Error: All time parameters must be positive." ∧
    (⟨-200, 37, 9.6, -1⟩ : HardwareParams).gate_time_ns ≤ 0 ∧
    0 < (⟨-200, 37, 9.6, -1⟩ : HardwareParams).t1_us ∧
    0 < (⟨-200, 37, 9.6, -1⟩ : HardwareParams).t2_us ∧
    0 < (⟨-200, -1, -2, 20⟩ : HardwareParams).gate_time_ns ∧
    (⟨-200, -1, -2, 20⟩ : HardwareParams).t1_us ≤ 0 := by
  refine ⟨?_, ?_, by norm_num, by norm_num, by norm_num, by norm_num, by norm_num⟩ <;>
    norm_num [executeToolComputeErrorBudget]

/-- C8 (amended): whenever any of gate_time_ns, t1_us, t2_us is
non-positive, the tool layer refuses to compute and no ErrorBudget is
produced; the refusal message is either the generic positivity error or,
when an earlier validation check fires first, that check's warning — it
does not name the failing field. -/
theorem executeTool_nonpositive_refuses (p : HardwareParams)
    (h : p.gate_time_ns ≤ 0 ∨ p.t1_us ≤ 0 ∨ p.t2_us ≤ 0) :
    ∃ msg, executeToolComputeErrorBudget p = .error msg := by
  unfold executeToolComputeErrorBudget
  split_ifs with h1 h2 <;> exact ⟨_, rfl⟩

/-- C8 witness at gate_time_ns = -1. -/
theorem executeTool_nonpositive_refuses_witness :
    ((⟨-200, 37, 9.6, -1⟩ : HardwareParams).gate_time_ns ≤ 0 ∨
     (⟨-200, 37, 9.6, -1⟩ : HardwareParams).t1_us ≤ 0 ∨
     (⟨-200, 37, 9.6, -1⟩ : HardwareParams).t2_us ≤ 0) ∧
    ∃ msg, executeToolComputeErrorBudget ⟨-200, 37, 9.6, -1⟩ = .error msg :=
  ⟨by norm_num,
   executeTool_nonpositive_refuses ⟨-200, 37, 9.6, -1⟩ (by norm_num)⟩

/-- C9: estimateRobustness returns exactly the fixed three-entry list
Gaussian, DRAG, GRAPE in that order, every minimum fidelity of the form
reference * (1 - coefficient * gate_factor) with
gate_factor = min(1, 20/gate_time_ns) and the table Gaussian
(0.937, 0.03, 0.965, 0.02), DRAG (0.990, 0.01, 0.990, 0.01), GRAPE
(0.931, 0.04, 0.994, 0.005); the robustness booleans are the constants
Gaussian (false, false), DRAG (true, true), GRAPE (false, true). -/
theorem estimateRobustness_table (p : HardwareParams) :
    estimateRobustness p =
      [ ⟨"Gaussian", 0.937 * (1 - 0.03 * min 1 (20 / p.gate_time_ns)),
          0.965 * (1 - 0.02 * min 1 (20 / p.gate_time_ns)), false, false⟩,
        ⟨"DRAG", 0.990 * (1 - 0.01 * min 1 (20 / p.gate_time_ns)),
          0.990 * (1 - 0.01 * min 1 (20 / p.gate_time_ns)), true, true⟩,
        ⟨"GRAPE", 0.931 * (1 - 0.04 * min 1 (20 / p.gate_time_ns)),
          0.994 * (1 - 0.005 * min 1 (20 / p.gate_time_ns)), false, true⟩ ] := rfl

/-- C10: computeErrorBudget performs none of the validation: on an
unphysical input with T2 > 2*T1 it still returns a complete budget, with
the dephasing clamp silently zeroing t2_contribution; the REST handler
equals computeErrorBudget applied directly, while the chat tool wrapper
refuses the same input. -/
theorem computeErrorBudget_no_validation (p : HardwareParams)
    (hg : 0 < p.gate_time_ns) (h1 : 0 < p.t1_us) (hu : 2 * p.t1_us < p.t2_us) :
    (computeErrorBudget p).decoherence_floor.t2_contribution = 0 ∧
    apiErrorBudget p = computeErrorBudget p ∧
    ∃ msg, executeToolComputeErrorBudget p = .error msg := by
  refine ⟨?_, rfl, ?_⟩
  · show max 0 (p.gate_time_ns / (p.t2_us * 1000)
        - p.gate_time_ns / (2 * (p.t1_us * 1000))) = 0
    have hle : p.gate_time_ns / (p.t2_us * 1000)
        ≤ p.gate_time_ns / (2 * (p.t1_us * 1000)) :=
      div_le_div_of_nonneg_left (le_of_lt hg) (by positivity) (by linarith)
    rw [max_eq_left (by linarith)]
  · unfold executeToolComputeErrorBudget
    rw [if_pos hu]
    exact ⟨_, rfl⟩

/-- C10 witness at T2 = 80 us > 2*T1 = 74 us. -/
theorem computeErrorBudget_no_validation_witness :
    (0 : ℚ) < (⟨-200, 37, 80, 20⟩ : HardwareParams).gate_time_ns ∧
    (0 : ℚ) < (⟨-200, 37, 80, 20⟩ : HardwareParams).t1_us ∧
    2 * (⟨-200, 37, 80, 20⟩ : HardwareParams).t1_us
      < (⟨-200, 37, 80, 20⟩ : HardwareParams).t2_us ∧
    ((computeErrorBudget ⟨-200, 37, 80, 20⟩).decoherence_floor.t2_contribution = 0 ∧
     apiErrorBudget ⟨-200, 37, 80, 20⟩ = computeErrorBudget ⟨-200, 37, 80, 20⟩ ∧
     ∃ msg, executeToolComputeErrorBudget ⟨-200, 37, 80, 20⟩ = .error msg) :=
  ⟨by norm_num, by norm_num, by norm_num,
   computeErrorBudget_no_validation ⟨-200, 37, 80, 20⟩
     (by norm_num) (by norm_num) (by norm_num)⟩

end PulseLab
